import Mathlib

/-!
# Verification of the PDF extraction / analysis pipeline (`src/streamlit-ui.py`)

Shallow embedding of the document-analysis script. Python strings are
modelled as `List Char` (a Python `str` is a sequence of code points);
raw PDF bytes as `List Nat`. Calls into external Python libraries
(PyPDF2, pdf2image, pytesseract, transformers) are modelled as fields of
an environment record; a call that may raise an exception yields
`Except (List Char) α`, the error carrying the text Python would render
for the caught exception `e`.
-/

/-- Model of a Python `str`: a sequence of characters. -/
abbrev PyStr := List Char

/-- Model of a Python `bytes` value. -/
abbrev PdfBytes := List Nat

/-- The ASCII whitespace characters recognised by Python's `str.strip()`:
space, tab, newline, carriage return, vertical tab, form feed. -/
def pySpace (c : Char) : Bool :=
  c = ' ' || c = '\t' || c = '\n' || c = '\r' || c = Char.ofNat 11 || c = Char.ofNat 12

/-- Python's `str.strip()`: remove leading and trailing whitespace. -/
def pyStrip (s : PyStr) : PyStr :=
  ((s.dropWhile pySpace).reverse.dropWhile pySpace).reverse

/-- Python's `sep.join(xs)`. -/
def pyJoin (sep : PyStr) (xs : List PyStr) : PyStr :=
  List.intercalate sep xs

/-- `page.extract_text() or ""` (line 22): a page's text is `None` or a
string; Python's `or` replaces a falsy value (here `None` or `""`) by `""`. -/
def pyOrEmpty (p : Option PyStr) : PyStr :=
  match p with
  | none => []
  | some t => if t = [] then [] else t

/-- Environment of external-library behaviour seen by
`extract_text_from_pdf_bytes`. -/
structure PdfEnv where
  /-- Whether the top-level `import PyPDF2` succeeded (lines 9-12). -/
  pypdf2Installed : Bool
  /-- `PyPDF2.PdfReader(BytesIO(pdf_bytes))` followed by the page loop
  (lines 20-23): either the per-page `extract_text()` results in document
  order (`none` for a page whose `extract_text()` returns `None`), or the
  exception raised anywhere inside the `try` block. -/
  parsePages : PdfBytes → Except PyStr (List (Option PyStr))
  /-- Whether `from pdf2image import convert_from_bytes` and
  `import pytesseract` succeed (lines 32-34). -/
  ocrImportOk : Bool
  /-- `convert_from_bytes(pdf_bytes)` (line 39): the rasterised page images
  (opaque handles), or a raised exception. -/
  convert_from_bytes : PdfBytes → Except PyStr (List Nat)
  /-- `pytesseract.image_to_string(img)` (line 40): the OCR text of one
  image, or a raised exception. -/
  image_to_string : Nat → Except PyStr PyStr

/-- Line 16: `"PyPDF2 not installed. Install with: pip install PyPDF2"`. -/
def msgNoPyPDF2 : PyStr :=
  "PyPDF2 not installed. Install with: pip install PyPDF2".data

/-- Line 25: the prefix of `f"PDF extraction error: {e}"`. -/
def msgParseErrorPrefix : PyStr :=
  "PDF extraction error: ".data

/-- Line 36: the OCR-dependency sentinel. -/
def msgOcrDepsMissing : PyStr :=
  "OCR dependencies missing. Install pdf2image and pytesseract to enable OCR.".data

/-- Line 43: the prefix of `f"OCR extraction failed: {e}"`. -/
def msgOcrFailedPrefix : PyStr :=
  "OCR extraction failed: ".data

/-- Line 44: `"No extractable text found. Try enabling OCR."`. -/
def msgNoText : PyStr :=
  "No extractable text found. Try enabling OCR.".data

/-- Line 27: `text = "\n".join(text_pages).strip()`, where `text_pages`
holds each page's `extract_text() or ""`. -/
def directText (pages : List (Option PyStr)) : PyStr :=
  pyStrip (pyJoin ['\n'] (pages.map pyOrEmpty))

/-- The list comprehension
`ocr_text = [pytesseract.image_to_string(img) for img in images]`
(line 40): each image is recognised independently, in order; the first
raised exception aborts the whole comprehension. -/
def ocrMapM (f : Nat → Except PyStr PyStr) : List Nat → Except PyStr (List PyStr)
  | [] => Except.ok []
  | i :: rest =>
    match f i with
    | Except.error e => Except.error e
    | Except.ok t =>
      match ocrMapM f rest with
      | Except.error e => Except.error e
      | Except.ok ts => Except.ok (t :: ts)

/-- `extract_text_from_pdf_bytes(pdf_bytes, use_ocr)` (lines 14-44).
Every external fault is a value of the environment, so the function is
total: no exception escapes it. -/
def extract_text_from_pdf_bytes (env : PdfEnv) (pdf_bytes : PdfBytes)
    (use_ocr : Bool) : PyStr :=
  if env.pypdf2Installed = false then msgNoPyPDF2
  else
    match env.parsePages pdf_bytes with
    | Except.error e => msgParseErrorPrefix ++ e
    | Except.ok pages =>
      if directText pages ≠ [] then directText pages
      else if use_ocr then
        if env.ocrImportOk = false then msgOcrDepsMissing
        else
          match env.convert_from_bytes pdf_bytes with
          | Except.error e => msgOcrFailedPrefix ++ e
          | Except.ok images =>
            match ocrMapM env.image_to_string images with
            | Except.error e => msgOcrFailedPrefix ++ e
            | Except.ok ocr_text => pyJoin ['\n'] ocr_text
      else msgNoText

/-- Which `return` statement of `extract_text_from_pdf_bytes` produced the
result. -/
inductive RetSite where
  | noPyPDF2
  | parseError
  | direct
  | ocrDepsMissing
  | ocrFailed
  | ocrJoin
  | noTextSentinel
  deriving DecidableEq, Repr

/-- `extract_text_from_pdf_bytes` instrumented with the `return` site that
fired; its first component is exactly the function's result
(`extractT_fst`). -/
def extractT (env : PdfEnv) (pdf_bytes : PdfBytes) (use_ocr : Bool) :
    PyStr × RetSite :=
  if env.pypdf2Installed = false then (msgNoPyPDF2, RetSite.noPyPDF2)
  else
    match env.parsePages pdf_bytes with
    | Except.error e => (msgParseErrorPrefix ++ e, RetSite.parseError)
    | Except.ok pages =>
      if directText pages ≠ [] then (directText pages, RetSite.direct)
      else if use_ocr then
        if env.ocrImportOk = false then (msgOcrDepsMissing, RetSite.ocrDepsMissing)
        else
          match env.convert_from_bytes pdf_bytes with
          | Except.error e => (msgOcrFailedPrefix ++ e, RetSite.ocrFailed)
          | Except.ok images =>
            match ocrMapM env.image_to_string images with
            | Except.error e => (msgOcrFailedPrefix ++ e, RetSite.ocrFailed)
            | Except.ok ocr_text => (pyJoin ['\n'] ocr_text, RetSite.ocrJoin)
      else (msgNoText, RetSite.noTextSentinel)

theorem extractT_fst (env : PdfEnv) (b : PdfBytes) (u : Bool) :
    (extractT env b u).1 = extract_text_from_pdf_bytes env b u := by
  unfold extractT extract_text_from_pdf_bytes
  cases h1 : env.pypdf2Installed
  · simp
  · simp only [Bool.true_eq_false, if_false]
    cases h2 : env.parsePages b with
    | error e => rfl
    | ok pages =>
      by_cases h3 : directText pages = []
      · simp only [h3, ne_eq, not_true_eq_false, if_false]
        cases u
        · rfl
        · simp only [if_true]
          cases h4 : env.ocrImportOk
          · rfl
          · simp only [Bool.true_eq_false, if_false]
            cases h5 : env.convert_from_bytes b with
            | error e => rfl
            | ok images =>
              cases h6 : ocrMapM env.image_to_string images with
              | error e => simp [h6]
              | ok ts => simp [h6]
      · simp only [h3, ne_eq, not_false_eq_true, if_true]

/-! ## Summarization chunking and backend resolution (lines 46-118) -/

/-- Line 98: `MAX_CHUNK = 1000`. -/
def MAX_CHUNK : Nat := 1000

/-- The index list `range(0, len, MAX_CHUNK)` (line 99): the multiples of
`MAX_CHUNK` below `len`, i.e. `0, MAX_CHUNK, 2*MAX_CHUNK, ...`; Python's
`range` with positive step produces `ceil(len / step)` values. -/
def chunkStarts (len : Nat) : List Nat :=
  (List.range ((len + MAX_CHUNK - 1) / MAX_CHUNK)).map (fun j => j * MAX_CHUNK)

/-- Line 99: `chunks = [extracted[i:i+MAX_CHUNK] for i in range(0, len(extracted), MAX_CHUNK)]`;
the slice `extracted[i:i+MAX_CHUNK]` is `(drop i).take MAX_CHUNK`. -/
def chunksOf (extracted : PyStr) : List PyStr :=
  (chunkStarts extracted.length).map (fun i => (extracted.drop i).take MAX_CHUNK)

/-- Lines 100-101: run the summarization pipeline on each chunk ­— `hs c`
models `hf_summarizer(c)[0]["summary_text"]` — and join the per-chunk
summaries with a blank line (`"\n\n".join(summaries)`). -/
def hfSummarize (hs : PyStr → PyStr) (extracted : PyStr) : PyStr :=
  pyJoin "\n\n".data ((chunksOf extracted).map hs)

/-- Environment of the module-level backend resolution (lines 46-74),
parametrised by the type `E` of structured NER output. -/
structure AppEnv (E : Type) where
  /-- `candidate.exists()` for `code/analysis.py` (line 53). -/
  analysisFileExists : Bool
  /-- Whether the import machinery and `spec.loader.exec_module` succeed
  (lines 54-57); a failure is caught by the outer `except` (line 60) with
  `summarize_fn` and `ner_fn` still `None`. -/
  execModuleOk : Bool
  /-- `getattr(repo_analysis, "summarize_text", None)` (line 58), with a
  falsy attribute modelled as `none`. -/
  summarize_text : Option (PyStr → PyStr)
  /-- `getattr(repo_analysis, "extract_entities", None)` (line 59). -/
  extract_entities : Option (PyStr → E)
  /-- `from transformers import pipeline` (line 68). -/
  transformersImportOk : Bool
  /-- `pipeline("summarization", model="google/flan-t5-small")` (line 70):
  the constructed summarizer, or a raised exception. -/
  mkSummarizer : Except Unit (PyStr → PyStr)
  /-- `pipeline("ner", grouped_entities=True)` (line 72). -/
  mkNer : Except Unit (PyStr → E)

/-- The value of `summarize_fn` after lines 46-61: the named attribute of
the loaded analysis module, or `None` when the file is absent or loading
failed. -/
def summarize_fn {E : Type} (env : AppEnv E) : Option (PyStr → PyStr) :=
  if env.analysisFileExists && env.execModuleOk then env.summarize_text else none

/-- The value of `ner_fn` after lines 46-61. -/
def ner_fn {E : Type} (env : AppEnv E) : Option (PyStr → E) :=
  if env.analysisFileExists && env.execModuleOk then env.extract_entities else none

/-- The values of `(hf_summarizer, hf_ner)` after lines 63-74. The two
pipeline constructions share one `try`: if the summarizer construction
raises, `hf_ner` is never assigned; if the NER construction raises,
`hf_summarizer` keeps the value already assigned. -/
def hfBackends {E : Type} (env : AppEnv E) :
    Option (PyStr → PyStr) × Option (PyStr → E) :=
  if (summarize_fn env).isSome && (ner_fn env).isSome then (none, none)
  else if env.transformersImportOk = false then (none, none)
  else if (summarize_fn env).isNone then
    match env.mkSummarizer with
    | Except.error _ => (none, none)
    | Except.ok hs =>
      if (ner_fn env).isNone then
        match env.mkNer with
        | Except.error _ => (some hs, none)
        | Except.ok hn => (some hs, some hn)
      else (some hs, none)
  else
    match env.mkNer with
    | Except.error _ => (none, none)
    | Except.ok hn => (none, some hn)

/-- Line 103: the missing-summarization-backend sentinel. -/
def msgNoSummarizeBackend : PyStr :=
  "No summarization backend available. Install transformers or add summarize_text in code/analysis.py".data

/-- Line 116: the missing-NER-backend sentinel. -/
def msgNoNerBackend : PyStr :=
  "No NER backend available. Install transformers or add extract_entities in code/analysis.py".data

/-- The Summarize button handler (lines 92-103): local function first,
else the chunked pipeline, else the sentinel. -/
def runSummarize {E : Type} (env : AppEnv E) (extracted : PyStr) : PyStr :=
  match summarize_fn env with
  | some f => f extracted
  | none =>
    match (hfBackends env).1 with
    | some hs => hfSummarize hs extracted
    | none => msgNoSummarizeBackend

/-- Result of the Extract Entities button: either the backend's structured
output or a sentinel message. -/
inductive NerOutcome (E : Type) where
  | entities (e : E)
  | message (s : PyStr)
  deriving DecidableEq, Repr

/-- The Extract Entities button handler (lines 108-116): local function
first, else the NER pipeline on the full text, else the sentinel. -/
def runNer {E : Type} (env : AppEnv E) (extracted : PyStr) : NerOutcome E :=
  match ner_fn env with
  | some g => NerOutcome.entities (g extracted)
  | none =>
    match (hfBackends env).2 with
    | some hn => NerOutcome.entities (hn extracted)
    | none => NerOutcome.message msgNoNerBackend

/-! ## Chunking lemmas -/

theorem chunksOf_nil : chunksOf [] = [] := by
  simp [chunksOf, chunkStarts, MAX_CHUNK]

theorem chunksOf_cons (s : PyStr) (h : s ≠ []) :
    chunksOf s = s.take MAX_CHUNK :: chunksOf (s.drop MAX_CHUNK) := by
  have hlen : 0 < s.length := List.length_pos.mpr h
  have hcount : (s.length + MAX_CHUNK - 1) / MAX_CHUNK
      = ((s.drop MAX_CHUNK).length + MAX_CHUNK - 1) / MAX_CHUNK + 1 := by
    rw [List.length_drop]
    simp only [MAX_CHUNK]
    omega
  unfold chunksOf chunkStarts
  rw [hcount, List.range_succ_eq_map]
  simp only [List.map_cons, List.map_map, Nat.zero_mul, List.drop_zero,
    List.cons.injEq]
  refine ⟨trivial, ?_⟩
  apply List.map_congr_left
  intro j _
  simp only [Function.comp_apply, Nat.succ_eq_add_one]
  rw [List.drop_drop]
  congr 1
  ring_nf

theorem chunksOf_eq_nil_iff (s : PyStr) : chunksOf s = [] ↔ s = [] := by
  constructor
  · intro h
    by_contra hne
    rw [chunksOf_cons s hne] at h
    exact List.cons_ne_nil _ _ h
  · intro h
    rw [h, chunksOf_nil]

theorem chunksOf_join_aux (n : Nat) :
    ∀ s : PyStr, s.length ≤ n → (chunksOf s).flatten = s := by
  induction n with
  | zero =>
    intro s hs
    have : s = [] := List.eq_nil_of_length_eq_zero (Nat.le_zero.mp hs)
    rw [this, chunksOf_nil]
    rfl
  | succ n ih =>
    intro s hs
    by_cases h : s = []
    · rw [h, chunksOf_nil]; rfl
    · rw [chunksOf_cons s h, List.flatten_cons]
      have hlen : 0 < s.length := List.length_pos.mpr h
      have : (s.drop MAX_CHUNK).length ≤ n := by
        rw [List.length_drop]
        simp only [MAX_CHUNK]
        omega
      rw [ih (s.drop MAX_CHUNK) this, List.take_append_drop]

theorem chunksOf_join (s : PyStr) : (chunksOf s).flatten = s :=
  chunksOf_join_aux s.length s le_rfl

theorem chunksOf_le_aux (n : Nat) :
    ∀ s : PyStr, s.length ≤ n →
      (chunksOf s).Forall (fun c => c.length ≤ MAX_CHUNK) := by
  induction n with
  | zero =>
    intro s hs
    have : s = [] := List.eq_nil_of_length_eq_zero (Nat.le_zero.mp hs)
    rw [this, chunksOf_nil]
    trivial
  | succ n ih =>
    intro s hs
    by_cases h : s = []
    · rw [h, chunksOf_nil]; trivial
    · rw [chunksOf_cons s h, List.forall_cons]
      have hlen : 0 < s.length := List.length_pos.mpr h
      refine ⟨?_, ih (s.drop MAX_CHUNK) ?_⟩
      · rw [List.length_take]
        exact Nat.min_le_left _ _
      · rw [List.length_drop]
        simp only [MAX_CHUNK]
        omega

theorem chunksOf_full_aux (n : Nat) :
    ∀ s : PyStr, s.length ≤ n →
      (chunksOf s).dropLast.Forall (fun c => c.length = MAX_CHUNK) := by
  induction n with
  | zero =>
    intro s hs
    have : s = [] := List.eq_nil_of_length_eq_zero (Nat.le_zero.mp hs)
    rw [this, chunksOf_nil]
    trivial
  | succ n ih =>
    intro s hs
    by_cases h : s = []
    · rw [h, chunksOf_nil]; trivial
    · rw [chunksOf_cons s h]
      by_cases hrest : s.drop MAX_CHUNK = []
      · rw [hrest, chunksOf_nil]
        trivial
      · have hne : chunksOf (s.drop MAX_CHUNK) ≠ [] := by
          rw [ne_eq, chunksOf_eq_nil_iff]
          exact hrest
        rw [List.dropLast_cons_of_ne_nil hne, List.forall_cons]
        have hlong : MAX_CHUNK < s.length := by
          by_contra hc
          exact hrest (List.drop_eq_nil_of_le (Nat.le_of_not_lt hc))
        refine ⟨?_, ih (s.drop MAX_CHUNK) ?_⟩
        · rw [List.length_take]
          exact Nat.min_eq_left (Nat.le_of_lt hlong)
        · rw [List.length_drop]
          simp only [MAX_CHUNK] at hlong ⊢
          omega

theorem chunksOf_replicate2500 :
    chunksOf (List.replicate 2500 'a')
      = [List.replicate 1000 'a', List.replicate 1000 'a', List.replicate 500 'a'] := by
  have h1 : (List.replicate 2500 'a' : PyStr) ≠ [] := by
    intro hnil
    have hl := congrArg List.length hnil
    rw [List.length_replicate] at hl
    exact absurd hl (by norm_num)
  have hd1 : (List.replicate 2500 'a' : PyStr).drop MAX_CHUNK = List.replicate 1500 'a' := by
    rw [List.drop_replicate]; norm_num [MAX_CHUNK]
  have ht1 : (List.replicate 2500 'a' : PyStr).take MAX_CHUNK = List.replicate 1000 'a' := by
    rw [List.take_replicate]; norm_num [MAX_CHUNK]
  have h2 : (List.replicate 1500 'a' : PyStr) ≠ [] := by
    intro hnil
    have hl := congrArg List.length hnil
    rw [List.length_replicate] at hl
    exact absurd hl (by norm_num)
  have hd2 : (List.replicate 1500 'a' : PyStr).drop MAX_CHUNK = List.replicate 500 'a' := by
    rw [List.drop_replicate]; norm_num [MAX_CHUNK]
  have ht2 : (List.replicate 1500 'a' : PyStr).take MAX_CHUNK = List.replicate 1000 'a' := by
    rw [List.take_replicate]; norm_num [MAX_CHUNK]
  have h3 : (List.replicate 500 'a' : PyStr) ≠ [] := by
    intro hnil
    have hl := congrArg List.length hnil
    rw [List.length_replicate] at hl
    exact absurd hl (by norm_num)
  have hd3 : (List.replicate 500 'a' : PyStr).drop MAX_CHUNK = [] := by
    rw [List.drop_replicate]; norm_num [MAX_CHUNK]
  have ht3 : (List.replicate 500 'a' : PyStr).take MAX_CHUNK = List.replicate 500 'a' := by
    rw [List.take_replicate]; norm_num [MAX_CHUNK]
  rw [chunksOf_cons _ h1, hd1, ht1, chunksOf_cons _ h2, hd2, ht2,
    chunksOf_cons _ h3, hd3, ht3, chunksOf_nil]

/-- C3: the summarization chunking splits the text into contiguous,
non-overlapping chunks in original order — their concatenation is the
original text — each of length at most `MAX_CHUNK = 1000`, every chunk
except possibly the last of length exactly 1000; a text of length 2500
yields exactly the chunk lengths 1000, 1000, 500 in order. -/
theorem summarization_chunking_spec (s : PyStr) :
    (chunksOf s).flatten = s
    ∧ (chunksOf s).Forall (fun c => c.length ≤ MAX_CHUNK)
    ∧ (chunksOf s).dropLast.Forall (fun c => c.length = MAX_CHUNK)
    ∧ (s.length = 2500 → (chunksOf s).map List.length = [1000, 1000, 500]) := by
  refine ⟨chunksOf_join s, chunksOf_le_aux s.length s le_rfl,
    chunksOf_full_aux s.length s le_rfl, ?_⟩
  intro h2500
  have h1 : s ≠ [] := by
    intro hnil; rw [hnil] at h2500; simp at h2500
  have hd1 : (s.drop MAX_CHUNK).length = 1500 := by
    rw [List.length_drop, h2500]; norm_num [MAX_CHUNK]
  have h2 : s.drop MAX_CHUNK ≠ [] := by
    intro hnil; rw [hnil] at hd1; simp at hd1
  have hd2 : ((s.drop MAX_CHUNK).drop MAX_CHUNK).length = 500 := by
    rw [List.length_drop, hd1]; norm_num [MAX_CHUNK]
  have h3 : (s.drop MAX_CHUNK).drop MAX_CHUNK ≠ [] := by
    intro hnil; rw [hnil] at hd2; simp at hd2
  have hd3 : (((s.drop MAX_CHUNK).drop MAX_CHUNK).drop MAX_CHUNK).length = 0 := by
    rw [List.length_drop, hd2]; norm_num [MAX_CHUNK]
  have h4 : ((s.drop MAX_CHUNK).drop MAX_CHUNK).drop MAX_CHUNK = [] :=
    List.eq_nil_of_length_eq_zero hd3
  rw [chunksOf_cons s h1, chunksOf_cons _ h2, chunksOf_cons _ h3, h4, chunksOf_nil]
  simp only [List.map_cons, List.map_nil, List.length_take, h2500, hd1, hd2]
  norm_num [MAX_CHUNK]

/-- Witness for C3 at a concrete text of length 2500. -/
theorem summarization_chunking_spec_witness :
    (chunksOf (List.replicate 2500 'a')).map List.length = [1000, 1000, 500] :=
  (summarization_chunking_spec (List.replicate 2500 'a')).2.2.2
    (List.length_replicate 2500 'a')

/-- C4: with the inference-pipeline backend, the summary of a text whose
chunking is `[c0, c1, c2]` is the per-chunk summaries, in chunk order,
joined by blank lines. -/
theorem chunked_summary_order (hs : PyStr → PyStr) (s c0 c1 c2 : PyStr)
    (h : chunksOf s = [c0, c1, c2]) :
    hfSummarize hs s
      = hs c0 ++ "\n\n".data ++ hs c1 ++ "\n\n".data ++ hs c2 := by
  unfold hfSummarize pyJoin
  rw [h]
  simp [List.intercalate, List.intersperse, List.append_assoc]

/-- Witness for C4 at a concrete text of length 2500 and a concrete
per-chunk summarizer. -/
theorem chunked_summary_order_witness :
    hfSummarize (fun c => c.take 1) (List.replicate 2500 'a')
      = (List.replicate 1000 'a').take 1 ++ "\n\n".data
        ++ (List.replicate 1000 'a').take 1 ++ "\n\n".data
        ++ (List.replicate 500 'a').take 1 :=
  chunked_summary_order (fun c => c.take 1) (List.replicate 2500 'a') _ _ _
    chunksOf_replicate2500

/-! ## Extraction claims -/

/-- C1: for every PDF whose direct text layer is non-empty (the parse
succeeds and the trimmed newline-join of the page texts is non-empty),
`extract` returns that trimmed newline-join — with `""` substituted for a
page yielding no text — and the result is non-empty; `use_ocr` is
irrelevant. -/
theorem direct_extraction_correct (env : PdfEnv) (b : PdfBytes) (u : Bool)
    (pages : List (Option PyStr))
    (hp : env.pypdf2Installed = true)
    (hparse : env.parsePages b = Except.ok pages)
    (hne : directText pages ≠ []) :
    extract_text_from_pdf_bytes env b u
        = pyStrip (pyJoin ['\n'] (pages.map pyOrEmpty))
    ∧ extract_text_from_pdf_bytes env b u ≠ [] := by
  have hmain : extract_text_from_pdf_bytes env b u = directText pages := by
    unfold extract_text_from_pdf_bytes
    rw [hp, hparse]
    simp [hne]
  exact ⟨hmain, by rw [hmain]; exact hne⟩

def envDirect : PdfEnv where
  pypdf2Installed := true
  parsePages := fun _ => Except.ok [some "hello".data]
  ocrImportOk := false
  convert_from_bytes := fun _ => Except.error []
  image_to_string := fun _ => Except.error []

/-- Witness for C1: a one-page PDF whose page text is `"hello"`. -/
theorem direct_extraction_correct_witness :
    extract_text_from_pdf_bytes envDirect [] false
        = pyStrip (pyJoin ['\n'] ([some "hello".data].map pyOrEmpty))
    ∧ extract_text_from_pdf_bytes envDirect [] false ≠ [] :=
  direct_extraction_correct envDirect [] false [some "hello".data] rfl rfl
    (by decide)

/-- C2: `extract` is a total function — no exception escapes it — and every
external fault is converted to the corresponding descriptive message: the
missing-library case, a parse fault, missing OCR dependencies, a
rasterization fault, and an OCR-recognition fault each yield their message
string as the result. -/
theorem extraction_faults_converted (env : PdfEnv) (b : PdfBytes) (u : Bool) :
    (env.pypdf2Installed = false →
      extract_text_from_pdf_bytes env b u = msgNoPyPDF2)
    ∧ (∀ e, env.pypdf2Installed = true → env.parsePages b = Except.error e →
      extract_text_from_pdf_bytes env b u = msgParseErrorPrefix ++ e)
    ∧ (∀ pages, env.pypdf2Installed = true →
      env.parsePages b = Except.ok pages → directText pages = [] →
      env.ocrImportOk = false →
      extract_text_from_pdf_bytes env b true = msgOcrDepsMissing)
    ∧ (∀ pages e, env.pypdf2Installed = true →
      env.parsePages b = Except.ok pages → directText pages = [] →
      env.ocrImportOk = true → env.convert_from_bytes b = Except.error e →
      extract_text_from_pdf_bytes env b true = msgOcrFailedPrefix ++ e)
    ∧ (∀ pages images e, env.pypdf2Installed = true →
      env.parsePages b = Except.ok pages → directText pages = [] →
      env.ocrImportOk = true → env.convert_from_bytes b = Except.ok images →
      ocrMapM env.image_to_string images = Except.error e →
      extract_text_from_pdf_bytes env b true = msgOcrFailedPrefix ++ e) := by
  refine ⟨?_, ?_, ?_, ?_, ?_⟩
  · intro hp
    unfold extract_text_from_pdf_bytes
    rw [hp]
    simp
  · intro e hp hparse
    unfold extract_text_from_pdf_bytes
    rw [hp, hparse]
    simp
  · intro pages hp hparse hdt himp
    unfold extract_text_from_pdf_bytes
    rw [hp, hparse]
    simp [hdt, himp]
  · intro pages e hp hparse hdt himp hconv
    unfold extract_text_from_pdf_bytes
    rw [hp, hparse]
    simp [hdt, himp, hconv]
  · intro pages images e hp hparse hdt himp hconv hmap
    unfold extract_text_from_pdf_bytes
    rw [hp, hparse]
    simp [hdt, himp, hconv, hmap]

def envParseErr : PdfEnv where
  pypdf2Installed := true
  parsePages := fun _ => Except.error "boom".data
  ocrImportOk := false
  convert_from_bytes := fun _ => Except.error []
  image_to_string := fun _ => Except.error []

/-- Witness for C2: a PDF (here: empty bytes) on which the parser raises
is answered with the descriptive parse-error message. -/
theorem extraction_faults_converted_witness :
    extract_text_from_pdf_bytes envParseErr [] true
      = msgParseErrorPrefix ++ "boom".data :=
  (extraction_faults_converted envParseErr [] true).2.1 "boom".data rfl rfl

/-! ## Backend-precedence claim -/

/-- C5: for each capability, when the local analysis file supplies the
named entry point, that function is applied to the full text and its
result returned unmodified, whatever the state of the inference-pipeline
backend (the environment — including every pipeline field — is arbitrary). -/
theorem local_backend_precedence (E : Type) (env : AppEnv E) (t : PyStr) :
    (∀ f, summarize_fn env = some f → runSummarize env t = f t)
    ∧ (∀ g, ner_fn env = some g → runNer env t = NerOutcome.entities (g t)) := by
  constructor
  · intro f hf
    unfold runSummarize
    rw [hf]
  · intro g hg
    unfold runNer
    rw [hg]

def envLocal : AppEnv Nat where
  analysisFileExists := true
  execModuleOk := true
  summarize_text := some (fun s => s.take 3)
  extract_entities := some (fun s => s.length)
  transformersImportOk := true
  mkSummarizer := Except.ok (fun _ => [])
  mkNer := Except.ok (fun _ => 0)

/-- Witness for C5: both entry points present; both handlers return the
local results even though both pipelines were constructible. -/
theorem local_backend_precedence_witness :
    runSummarize envLocal "abcd".data = "abcd".data.take 3
    ∧ runNer envLocal "abcd".data = NerOutcome.entities "abcd".data.length :=
  ⟨(local_backend_precedence Nat envLocal "abcd".data).1 _ rfl,
   (local_backend_precedence Nat envLocal "abcd".data).2 _ rfl⟩

/-! ## Sentinel and OCR-path claims -/

/-- C6: on the `use_ocr = false` path the "enable OCR" sentinel is returned
exactly when the parse succeeded and the trimmed joined page text is
empty: that case yields the sentinel, and conversely the sentinel's
`return` fires in no other case (the instrumented `extractT` names the
`return` site, and its value is the function's result). -/
theorem no_text_sentinel_exact (env : PdfEnv) (b : PdfBytes) :
    (∀ pages, env.pypdf2Installed = true →
      env.parsePages b = Except.ok pages → directText pages = [] →
      extract_text_from_pdf_bytes env b false = msgNoText
      ∧ (extractT env b false).2 = RetSite.noTextSentinel)
    ∧ ((extractT env b false).2 = RetSite.noTextSentinel →
      env.pypdf2Installed = true
      ∧ ∃ pages, env.parsePages b = Except.ok pages ∧ directText pages = [])
    ∧ extract_text_from_pdf_bytes env b false = (extractT env b false).1 := by
  refine ⟨?_, ?_, (extractT_fst env b false).symm⟩
  · intro pages hp hparse hdt
    constructor
    · unfold extract_text_from_pdf_bytes
      rw [hp, hparse]
      simp [hdt]
    · unfold extractT
      rw [hp, hparse]
      simp [hdt]
  · intro htag
    unfold extractT at htag
    cases hp : env.pypdf2Installed
    · rw [hp] at htag
      simp at htag
    · rw [hp] at htag
      simp only [Bool.true_eq_false, if_false] at htag
      cases hparse : env.parsePages b with
      | error e =>
        rw [hparse] at htag
        simp at htag
      | ok pages =>
        rw [hparse] at htag
        by_cases hdt : directText pages = []
        · exact ⟨rfl, pages, rfl, hdt⟩
        · simp [hdt] at htag

def envNoText : PdfEnv where
  pypdf2Installed := true
  parsePages := fun _ => Except.ok []
  ocrImportOk := false
  convert_from_bytes := fun _ => Except.error []
  image_to_string := fun _ => Except.error []

/-- Witness for C6: a structurally valid PDF with no pages yields the
sentinel on the `use_ocr = false` path. -/
theorem no_text_sentinel_exact_witness :
    extract_text_from_pdf_bytes envNoText [] false = msgNoText
    ∧ (extractT envNoText [] false).2 = RetSite.noTextSentinel :=
  (no_text_sentinel_exact envNoText []).1 [] rfl rfl rfl

theorem ocrMapM_ok (f : Nat → Except PyStr PyStr) (g : Nat → PyStr) :
    ∀ l : List Nat, (∀ i ∈ l, f i = Except.ok (g i)) →
      ocrMapM f l = Except.ok (l.map g) := by
  intro l
  induction l with
  | nil => intro _; rfl
  | cons a t ih =>
    intro h
    have ha := h a (List.mem_cons_self a t)
    have ht := ih (fun i hi => h i (List.mem_cons_of_mem a hi))
    simp [ocrMapM, ha, ht]

/-- C7: for a PDF with no direct text layer, with `use_ocr = true` and a
working OCR backend (every rasterized image is recognised without fault),
`extract` returns the newline-join of the per-page OCR outputs, each page
recognised independently, in page order. -/
theorem ocr_fallback_correct (env : PdfEnv) (b : PdfBytes)
    (pages : List (Option PyStr)) (images : List Nat) (g : Nat → PyStr)
    (hp : env.pypdf2Installed = true)
    (hparse : env.parsePages b = Except.ok pages)
    (hdt : directText pages = [])
    (himp : env.ocrImportOk = true)
    (hconv : env.convert_from_bytes b = Except.ok images)
    (hocr : ∀ i ∈ images, env.image_to_string i = Except.ok (g i)) :
    extract_text_from_pdf_bytes env b true = pyJoin ['\n'] (images.map g) := by
  unfold extract_text_from_pdf_bytes
  rw [hp, hparse]
  simp [hdt, himp, hconv, ocrMapM_ok env.image_to_string g images hocr]

def envOcr : PdfEnv where
  pypdf2Installed := true
  parsePages := fun _ => Except.ok []
  ocrImportOk := true
  convert_from_bytes := fun _ => Except.ok [0, 1]
  image_to_string := fun i =>
    Except.ok (if i = 0 then "page one".data else "page two".data)

/-- Witness for C7: two rasterized pages OCR'd to "page one" and
"page two", joined with a newline in page order. -/
theorem ocr_fallback_correct_witness :
    extract_text_from_pdf_bytes envOcr [] true
      = pyJoin ['\n']
          ([0, 1].map (fun i => if i = 0 then "page one".data else "page two".data)) :=
  ocr_fallback_correct envOcr [] [] [0, 1]
    (fun i => if i = 0 then "page one".data else "page two".data)
    rfl rfl rfl rfl rfl (fun _ _ => rfl)

/-- C9: when the trimmed direct text is non-empty, `extract` returns it for
either value of `use_ocr`, the `return` that fires is the direct-text one,
and the result is unchanged under any other environment that agrees on the
parse outcome — the OCR machinery (imports, rasterizer, recognizer) is
never consulted. -/
theorem direct_short_circuit (env env' : PdfEnv) (b : PdfBytes) (u u' : Bool)
    (pages : List (Option PyStr))
    (hp : env.pypdf2Installed = true)
    (hparse : env.parsePages b = Except.ok pages)
    (hne : directText pages ≠ []) :
    extract_text_from_pdf_bytes env b u = directText pages
    ∧ (extractT env b u).2 = RetSite.direct
    ∧ (env'.pypdf2Installed = true → env'.parsePages b = Except.ok pages →
      extract_text_from_pdf_bytes env' b u' = extract_text_from_pdf_bytes env b u) := by
  have hmain : extract_text_from_pdf_bytes env b u = directText pages := by
    unfold extract_text_from_pdf_bytes
    rw [hp, hparse]
    simp [hne]
  refine ⟨hmain, ?_, ?_⟩
  · unfold extractT
    rw [hp, hparse]
    simp [hne]
  · intro hp' hparse'
    rw [hmain]
    unfold extract_text_from_pdf_bytes
    rw [hp', hparse']
    simp [hne]

def envDirectOcr : PdfEnv where
  pypdf2Installed := true
  parsePages := fun _ => Except.ok [some "hello".data]
  ocrImportOk := true
  convert_from_bytes := fun _ => Except.ok [7]
  image_to_string := fun _ => Except.ok "IGNORED".data

/-- Witness for C9: same parse outcome, wildly different OCR machinery and
a different `use_ocr` flag — same result, from the direct-text `return`. -/
theorem direct_short_circuit_witness :
    extract_text_from_pdf_bytes envDirect [] true = directText [some "hello".data]
    ∧ (extractT envDirect [] true).2 = RetSite.direct
    ∧ extract_text_from_pdf_bytes envDirectOcr [] false
        = extract_text_from_pdf_bytes envDirect [] true :=
  ⟨(direct_short_circuit envDirect envDirectOcr [] true false [some "hello".data]
      rfl rfl (by decide)).1,
   (direct_short_circuit envDirect envDirectOcr [] true false [some "hello".data]
      rfl rfl (by decide)).2.1,
   (direct_short_circuit envDirect envDirectOcr [] true false [some "hello".data]
      rfl rfl (by decide)).2.2 rfl rfl⟩

def envOcrEmpty : PdfEnv where
  pypdf2Installed := true
  parsePages := fun _ => Except.ok []
  ocrImportOk := true
  convert_from_bytes := fun _ => Except.ok []
  image_to_string := fun _ => Except.error []

def envOcrBlank : PdfEnv where
  pypdf2Installed := true
  parsePages := fun _ => Except.ok [some "  ".data]
  ocrImportOk := true
  convert_from_bytes := fun _ => Except.ok [0, 1]
  image_to_string := fun _ => Except.ok " ".data

/-- C10: with `use_ocr = true`, a fault-free OCR run that produces no text
is returned as-is — an empty string when rasterization yields zero images,
a whitespace-only string when every page OCRs to whitespace — never a
sentinel; and the no-extractable-text sentinel's `return` can fire only on
the `use_ocr = false` path. -/
theorem ocr_no_text_passthrough :
    extract_text_from_pdf_bytes envOcrEmpty [] true = []
    ∧ extract_text_from_pdf_bytes envOcrBlank [] true = [' ', '\n', ' ']
    ∧ pyStrip (extract_text_from_pdf_bytes envOcrBlank [] true) = []
    ∧ ∀ (env : PdfEnv) (b : PdfBytes),
        (extractT env b true).2 ≠ RetSite.noTextSentinel := by
  refine ⟨by decide, by decide, by decide, ?_⟩
  intro env b
  unfold extractT
  cases hp : env.pypdf2Installed
  · simp
  · simp only [Bool.true_eq_false, if_false]
    cases hparse : env.parsePages b with
    | error e => simp
    | ok pages =>
      by_cases hdt : directText pages = []
      · simp only [hdt, ne_eq, not_true_eq_false, if_false, if_true]
        cases himp : env.ocrImportOk
        · simp
        · simp only [Bool.true_eq_false, if_false]
          cases hconv : env.convert_from_bytes b with
          | error e => simp
          | ok images =>
            cases hmap : ocrMapM env.image_to_string images with
            | error e => simp [hmap]
            | ok ts => simp [hmap]
      · simp [hdt]

/-! ## Trimming: `pyStrip` is idempotent, and which paths trim -/

theorem dropWhile_idem (p : Char → Bool) (l : List Char) :
    (l.dropWhile p).dropWhile p = l.dropWhile p := by
  induction l with
  | nil => rfl
  | cons a t ih =>
    cases h : p a
    · simp [List.dropWhile_cons, h]
    · simp [List.dropWhile_cons, h, ih]

theorem head?_dropWhile_false (p : Char → Bool) (l : List Char) (a : Char)
    (h : (l.dropWhile p).head? = some a) : p a = false := by
  induction l with
  | nil => simp at h
  | cons b t ih =>
    cases hb : p b
    · rw [List.dropWhile_cons, hb] at h
      simp at h
      exact h ▸ hb
    · rw [List.dropWhile_cons, hb] at h
      simp at h
      exact ih h

theorem dropWhile_eq_self_of_head (p : Char → Bool) (l : List Char)
    (h : ∀ a, l.head? = some a → p a = false) : l.dropWhile p = l := by
  cases l with
  | nil => rfl
  | cons a t =>
    rw [List.dropWhile_cons, h a rfl]
    simp

theorem getLast?_dropWhile (p : Char → Bool) :
    ∀ l : List Char, l.dropWhile p ≠ [] →
      (l.dropWhile p).getLast? = l.getLast? := by
  intro l
  induction l with
  | nil => intro h; exact absurd rfl h
  | cons a t ih =>
    intro h
    cases ha : p a
    · rw [List.dropWhile_cons, ha]
      simp
    · rw [List.dropWhile_cons, ha] at h ⊢
      simp only [if_true] at h ⊢
      cases t with
      | nil => exact absurd rfl h
      | cons b t2 =>
        rw [ih h, List.getLast?_cons_cons]

theorem pyStrip_idem (s : PyStr) : pyStrip (pyStrip s) = pyStrip s := by
  unfold pyStrip
  by_cases hvnil : (s.dropWhile pySpace).reverse.dropWhile pySpace = []
  · simp [hvnil]
  · have h1 : ((s.dropWhile pySpace).reverse.dropWhile pySpace).reverse.dropWhile pySpace
        = ((s.dropWhile pySpace).reverse.dropWhile pySpace).reverse := by
      apply dropWhile_eq_self_of_head
      intro a ha
      rw [List.head?_reverse] at ha
      rw [getLast?_dropWhile pySpace (s.dropWhile pySpace).reverse hvnil] at ha
      rw [List.getLast?_reverse] at ha
      exact head?_dropWhile_false pySpace s a ha
    rw [h1, List.reverse_reverse, dropWhile_idem]

def envOcrUntrimmed : PdfEnv where
  pypdf2Installed := true
  parsePages := fun _ => Except.ok []
  ocrImportOk := true
  convert_from_bytes := fun _ => Except.ok [0]
  image_to_string := fun _ => Except.ok " hi ".data

/-- C8 counterexample: the OCR path returns the raw newline-join of the
per-page OCR outputs without stripping, so a produced ExtractedText value
(`" hi "`) carries surrounding whitespace. -/
theorem extracted_text_trimming_counterexample :
    extract_text_from_pdf_bytes envOcrUntrimmed [] true = " hi ".data
    ∧ pyStrip (extract_text_from_pdf_bytes envOcrUntrimmed [] true)
        ≠ extract_text_from_pdf_bytes envOcrUntrimmed [] true := by
  constructor
  · decide
  · decide

/-- C8 amended: a value produced by the direct per-page text path is
trimmed of leading and trailing whitespace (stripping it again changes
nothing), while a value produced by the OCR path is the raw newline-join
of the per-page OCR outputs, returned without trimming. -/
theorem extracted_text_trimming (env : PdfEnv) (b : PdfBytes) (u : Bool) :
    (∀ pages, env.pypdf2Installed = true →
      env.parsePages b = Except.ok pages → directText pages ≠ [] →
      pyStrip (extract_text_from_pdf_bytes env b u)
        = extract_text_from_pdf_bytes env b u)
    ∧ (∀ pages images g, env.pypdf2Installed = true →
      env.parsePages b = Except.ok pages → directText pages = [] →
      env.ocrImportOk = true → env.convert_from_bytes b = Except.ok images →
      (∀ i ∈ images, env.image_to_string i = Except.ok (g i)) →
      extract_text_from_pdf_bytes env b true = pyJoin ['\n'] (images.map g)) := by
  constructor
  · intro pages hp hparse hne
    have hmain : extract_text_from_pdf_bytes env b u = directText pages := by
      unfold extract_text_from_pdf_bytes
      rw [hp, hparse]
      simp [hne]
    rw [hmain]
    unfold directText
    exact pyStrip_idem _
  · intro pages images g hp hparse hdt himp hconv hocr
    unfold extract_text_from_pdf_bytes
    rw [hp, hparse]
    simp [hdt, himp, hconv, ocrMapM_ok env.image_to_string g images hocr]

/-- Witness for the amended C8 on the direct path. -/
theorem extracted_text_trimming_witness :
    pyStrip (extract_text_from_pdf_bytes envDirect [] false)
      = extract_text_from_pdf_bytes envDirect [] false :=
  (extracted_text_trimming envDirect [] false).1 [some "hello".data] rfl rfl
    (by decide)
